import Mathlib

/-!
Shallow embedding of the computational core of the PeduliGiziBalita Flask
application (`app(16).py`): the measurement validator, the WHO z-score
dispatch, the nutrition classifier, the `/api/calculate-zscore` endpoint,
and the `/api/kpsp-evaluate` endpoint.

Floats are modelled as rationals (all constants and comparisons used by the
code are exact), Python `None` as `Option.none`, and the external `pygrowup`
reference-table calculator as an opaque record of lookup functions that may
fail (`Option ℚ` models both a raised exception caught by the caller and a
missing table entry).
-/

namespace PeduliGizi

/-- The `BOUNDS` table of anthropometric measurement bounds (WHO standards),
from `app(16).py` line 189: index-kind key, (min, max). -/
def BOUNDS : List (String × ℚ × ℚ) :=
  [("wfa", (1, 30)),
   ("hfa", (45, 125)),
   ("hcfa", (30, 55)),
   ("wfl_w", (1, 30)),
   ("wfl_l", (45, 110))]

/-- `validate_measurement(value, bounds, field_name)` from `app(16).py`
lines 594-601: `False` on `None`, `False` when the value falls outside
`[min_val, max_val]`, `True` otherwise. -/
def validate_measurement (value : Option ℚ) (bounds : ℚ × ℚ)
    (field_name : String) : Bool :=
  let min_val := bounds.1
  let max_val := bounds.2
  match value with
  | none => false
  | some v => if ¬ (min_val ≤ v ∧ v ≤ max_val) then false else true

/-- The external `pygrowup` `Calculator`: one opaque reference-table lookup
per index kind.  Each lookup takes the two measurement arguments in the
positional order the code passes them, plus the gender string, and returns
`none` when the lookup raises or cannot produce a value (the caller of each
method catches every exception and maps it to `None`). -/
structure Calculator where
  wfa : Option ℚ → Option ℚ → String → Option ℚ
  hfa : Option ℚ → Option ℚ → String → Option ℚ
  wfh : Option ℚ → Option ℚ → String → Option ℚ
  bfa : Option ℚ → Option ℚ → String → Option ℚ
  hcfa : Option ℚ → Option ℚ → String → Option ℚ

/-- `calculate_z_score(weight, height, age_months, gender, measurement_type)`
from `app(16).py` lines 603-624.  The module-level `calc` may be `None`
(initialization failure), hence the `Option Calculator` parameter; an
unknown `measurement_type` returns `None`; any exception inside a dispatch
is caught and becomes `None` (folded into the lookup functions). -/
def calculate_z_score (c : Option Calculator)
    (weight height age_months : Option ℚ)
    (gender : String) (measurement_type : String) : Option ℚ :=
  match c with
  | none => none
  | some cal =>
    if measurement_type = "wfa" then cal.wfa weight age_months gender
    else if measurement_type = "hfa" then cal.hfa height age_months gender
    else if measurement_type = "wfh" then cal.wfh weight height gender
    else if measurement_type = "bfa" then cal.bfa weight height gender
    else if measurement_type = "hcfa" then cal.hcfa weight age_months gender
    else none

/-- The classification record returned by `classify_nutrition`. -/
structure NutritionClassification where
  status : String
  color : String
  category : String
deriving DecidableEq, Repr

/-- `classify_nutrition(z_score)` from `app(16).py` lines 626-642. -/
def classify_nutrition (z_score : Option ℚ) : NutritionClassification :=
  match z_score with
  | none => ⟨"Tidak dapat dinilai", "#9e9e9e", "unknown"⟩
  | some z =>
    if z < -3 then ⟨"Gizi Buruk", "#d32f2f", "severe_underweight"⟩
    else if z < -2 then ⟨"Gizi Kurang", "#f57c00", "underweight"⟩
    else if z ≤ 1 then ⟨"Gizi Baik", "#388e3c", "normal"⟩
    else if z ≤ 2 then ⟨"Berisiko Gizi Lebih", "#fbc02d", "risk_overweight"⟩
    else if z ≤ 3 then ⟨"Gizi Lebih", "#f57c00", "overweight"⟩
    else ⟨"Obesitas", "#d32f2f", "obese"⟩

/-- Python `round` to the nearest integer: round half to even. -/
def pyRoundInt (q : ℚ) : ℤ :=
  let f := ⌊q⌋
  if q - f < 1 / 2 then f
  else if q - f > 1 / 2 then f + 1
  else if f % 2 = 0 then f else f + 1

/-- Python `round(z, 2)`: round to two decimal places, half to even. -/
def round2 (q : ℚ) : ℚ := (pyRoundInt (q * 100) : ℚ) / 100

example : round2 (5 / 4) = 5 / 4 := by norm_num [round2, pyRoundInt]
example : round2 (1 / 3) = 33 / 100 := by norm_num [round2, pyRoundInt]
example : pyRoundInt (5 / 2) = 2 := by norm_num [pyRoundInt]
example : pyRoundInt (7 / 2) = 4 := by norm_num [pyRoundInt]
example : pyRoundInt (-5 / 2) = -2 := by norm_num [pyRoundInt]

example : (classify_nutrition (some (-2))).category = "normal" := by decide
example : (classify_nutrition (some (-20001 / 10000))).category = "underweight" := by
  norm_num [classify_nutrition]
example : (classify_nutrition none).category = "unknown" := by decide
example : validate_measurement (some 1) (1, 30) "weight" = true := by decide
example : validate_measurement (some 0) (1, 30) "weight" = false := by decide
example : validate_measurement none (1, 30) "weight" = false := by decide

/-- A parsed JSON body for `POST /api/calculate-zscore`.  Each numeric field
holds the result of `as_float(data.get(...))`: `none` when the key is absent,
empty, or unparseable.  `gender` and `type` hold the raw string when the key
is present. -/
structure ZRequest where
  weight : Option ℚ
  height : Option ℚ
  age_months : Option ℚ
  gender : Option String
  type : Option String
deriving DecidableEq

/-- The JSON response of `POST /api/calculate-zscore`: HTTP status plus the
keys the handler may emit (`none` models an absent key). -/
structure ZResponse where
  status : Nat
  error : Option String
  z_score : Option ℚ
  classification : Option NutritionClassification
deriving DecidableEq

/-- Python `str.upper()`: uppercase every character (the code only relies on
ASCII behaviour, on which Python and `Char.toUpper` agree). -/
def pyUpper (s : String) : String := String.mk (s.data.map Char.toUpper)

/-- The effective gender string: `data.get('gender', 'M').upper()` from
`app(16).py` line 731. -/
def genderEff (r : ZRequest) : String := pyUpper (r.gender.getD "M")

/-- The effective measurement type: `data.get('type', 'wfa')` from
`app(16).py` line 732. -/
def typeEff (r : ZRequest) : String := r.type.getD "wfa"

/-- The handler `api_calculate_zscore` from `app(16).py` lines 722-763,
parameterized by the module-level `calc` object.  The locals
`weight`, `height`, `age_months`, `gender`, `measurement_type` are inlined
(`gender` as `genderEff r`, `measurement_type` as `typeEff r`). -/
def api_calculate_zscore (c : Option Calculator) (r : ZRequest) : ZResponse :=
  if r.weight = none ∨ r.age_months = none then
    ⟨400, some "Weight and age are required", none, none⟩
  else if ¬ (genderEff r = "M" ∨ genderEff r = "F") then
    ⟨400, some "Gender must be M or F", none, none⟩
  else
    match calculate_z_score c r.weight r.height r.age_months (genderEff r)
        (typeEff r) with
    | none => ⟨500, some "Could not calculate z-score", none, none⟩
    | some z => ⟨200, none, some (round2 z), some (classify_nutrition (some z))⟩

example : pyUpper "m" = "M" := by decide
example : pyUpper "f" = "F" := by decide
example : pyUpper "M" = "M" := by decide

/-- `KPSP_QUESTIONS` from `app(16).py` lines 375-432: age band (months) and
its question list, in ascending key order (matching `sorted(keys)`). -/
def KPSP_QUESTIONS : List (ℚ × List String) :=
  [(3,
    ["Apakah anak dapat mengangkat kepalanya 45° saat tengkurap?",
     "Apakah anak tersenyum saat diajak bicara atau tersenyum sendiri?",
     "Apakah anak mengeluarkan suara-suara (mengoceh)?",
     "Apakah anak dapat menatap dan mengikuti wajah ibu/pengasuh?",
     "Apakah anak berusaha meraih benda atau mainan yang ditunjukkan?"]),
   (6,
    ["Apakah anak dapat duduk dengan bantuan (bersandar)?",
     "Apakah anak dapat memindahkan mainan dari tangan satu ke tangan lain?",
     "Apakah anak mengeluarkan suara vokal seperti 'a-u-o'?",
     "Apakah anak tertawa keras saat bermain atau diajak bercanda?",
     "Apakah anak mengenal orang asing (tampak malu atau marah)?"]),
   (9,
    ["Apakah anak dapat duduk sendiri tanpa bantuan minimal 1 menit?",
     "Apakah anak dapat merangkak maju (bukan mundur)?",
     "Apakah anak mengucapkan 'mama' atau 'papa' (meski berlebihan)?",
     "Apakah anak dapat meraih benda kecil dengan jempol dan telunjuk?",
     "Apakah anak dapat menirukan gerakan tepuk tangan?"]),
   (12,
    ["Apakah anak dapat berdiri sendiri minimal 5 detik tanpa berpegangan?",
     "Apakah anak dapat berjalan berpegangan pada furniture?",
     "Apakah anak dapat mengucapkan 2-3 kata yang bermakna?",
     "Apakah anak dapat minum dari cangkir sendiri?",
     "Apakah anak dapat menunjuk benda yang diinginkannya?"]),
   (15,
    ["Apakah anak dapat berjalan sendiri dengan stabil minimal 5 langkah?",
     "Apakah anak dapat minum dari gelas tanpa tumpah?",
     "Apakah anak dapat mengucapkan 4-6 kata dengan jelas?",
     "Apakah anak dapat menumpuk 2 kubus dengan stabil?",
     "Apakah anak dapat membantu melepas sepatunya sendiri?"]),
   (18,
    ["Apakah anak dapat berlari minimal 5 langkah berturut-turut?",
     "Apakah anak dapat naik tangga dengan bantuan pegangan?",
     "Apakah anak dapat mengucapkan 10-15 kata yang berbeda?",
     "Apakah anak dapat makan sendiri dengan sendok?",
     "Apakah anak dapat menunjuk minimal 2 bagian tubuhnya?"]),
   (21,
    ["Apakah anak dapat menendang bola ke depan tanpa jatuh?",
     "Apakah anak dapat naik tangga dengan 1 kaki bergantian?",
     "Apakah anak dapat mengucapkan kalimat 2-3 kata?",
     "Apakah anak dapat membalik halaman buku satu per satu?",
     "Apakah anak dapat mengikuti perintah sederhana 2 tahap?"]),
   (24,
    ["Apakah anak dapat melompat dengan 2 kaki bersamaan?",
     "Apakah anak dapat naik-turun tangga tanpa pegangan?",
     "Apakah anak dapat membuat kalimat 3-4 kata yang runtut?",
     "Apakah anak dapat menggambar garis vertikal setelah dicontohkan?",
     "Apakah anak dapat mengikuti perintah kompleks 3 tahap?"])]

/-- The sorted key list `sorted(KPSP_QUESTIONS.keys())`. -/
def kpspKeys : List ℚ := KPSP_QUESTIONS.map Prod.fst

/-- The age-band selection loop of `api_kpsp_evaluate` (`app(16).py` lines
777-780): iterate over the sorted keys, remembering the last key `≤` the
child's age. -/
def kpspAgeGroup (age_months : ℚ) : Option ℚ :=
  kpspKeys.foldl (fun acc age => if age_months ≥ age then some age else acc) none

/-- `KPSP_QUESTIONS[age_group]`: the question list of a band. -/
def kpspQuestionsFor (age_group : ℚ) : List String :=
  ((KPSP_QUESTIONS.find? (fun p => p.1 == age_group)).map Prod.snd).getD []

/-- A parsed JSON body for `POST /api/kpsp-evaluate`: `age_months` is
`as_float(data.get('age_months'))`, `answers` is `data.get('answers', [])`
with each element read for truthiness. -/
structure KRequest where
  age_months : Option ℚ
  answers : List Bool
deriving DecidableEq

/-- The JSON response of `POST /api/kpsp-evaluate` (`none` models an absent
key). -/
structure KResponse where
  status : Nat
  error : Option String
  age_group : Option ℚ
  score : Option Nat
  total_questions : Option Nat
  result : Option String
  color : Option String
  recommendation : Option String
deriving DecidableEq

/-- The handler `api_kpsp_evaluate` from `app(16).py` lines 765-819. -/
def api_kpsp_evaluate (r : KRequest) : KResponse :=
  match r.age_months with
  | none => ⟨400, some "Age is required", none, none, none, none, none, none⟩
  | some age_months =>
    match kpspAgeGroup age_months with
    | none =>
      ⟨400, some "No KPSP questions available for this age",
       none, none, none, none, none, none⟩
    | some age_group =>
      let questions := kpspQuestionsFor age_group
      if r.answers.length ≠ questions.length then
        ⟨400, some "Number of answers doesn't match questions",
         none, none, none, none, none, none⟩
      else
        let score := (r.answers.filter (fun a => a)).length
        if (score : ℚ) ≥ (questions.length : ℚ) * (8 / 10) then
          ⟨200, none, some age_group, some score, some questions.length,
           some "Perkembangan Sesuai Usia", some "#4caf50",
           some "Pertumbuhan dan perkembangan anak sesuai usia. Terus lakukan stimulasi."⟩
        else if (score : ℚ) ≥ (questions.length : ℚ) * (6 / 10) then
          ⟨200, none, some age_group, some score, some questions.length,
           some "Perkembangan Terduga Terlambat", some "#ff9800",
           some "Perlu stimulasi intensif dan pemantauan lebih lanjut."⟩
        else
          ⟨200, none, some age_group, some score, some questions.length,
           some "Perkembangan Terlambat", some "#f44336",
           some "Segera konsultasikan dengan dokter anak untuk evaluasi lebih lanjut."⟩

example : kpspAgeGroup 12 = some 12 := by decide
example : kpspAgeGroup 13 = some 12 := by decide
example : kpspAgeGroup 2 = none := by decide
example : kpspAgeGroup 60 = some 24 := by decide
example : (kpspQuestionsFor 12).length = 5 := by decide
example :
    (api_kpsp_evaluate ⟨some 12, [true, true, true, true, true]⟩).result =
      some "Perkembangan Sesuai Usia" := by
  norm_num [api_kpsp_evaluate, kpspAgeGroup, kpspKeys, KPSP_QUESTIONS,
    kpspQuestionsFor, List.filter]
example :
    (api_kpsp_evaluate ⟨some 12, [true, true, false, false, false]⟩).result =
      some "Perkembangan Terlambat" := by
  norm_num [api_kpsp_evaluate, kpspAgeGroup, kpspKeys, KPSP_QUESTIONS,
    kpspQuestionsFor, List.filter]
example :
    (api_kpsp_evaluate ⟨some 12, [true, true, true, false, false]⟩).result =
      some "Perkembangan Terduga Terlambat" := by
  norm_num [api_kpsp_evaluate, kpspAgeGroup, kpspKeys, KPSP_QUESTIONS,
    kpspQuestionsFor, List.filter]

/-!  ## Theorems about the claims  -/

/-- C5: for every bounds pair `(min, max)`, `validate_measurement` returns
`false` on a null value, `false` when the value lies strictly outside
`[min, max]`, and `true` otherwise — in particular `true` at values within
bounds including exactly `min` or `max`, and `false` one unit below `min`
or one unit above `max`. -/
theorem C5_validate_bounds (mn mx v : ℚ) (field_name : String) :
    validate_measurement none (mn, mx) field_name = false ∧
    (mn ≤ v → v ≤ mx → validate_measurement (some v) (mn, mx) field_name = true) ∧
    (v < mn ∨ mx < v → validate_measurement (some v) (mn, mx) field_name = false) ∧
    validate_measurement (some (mn - 1)) (mn, mx) field_name = false ∧
    validate_measurement (some (mx + 1)) (mn, mx) field_name = false ∧
    (mn ≤ mx → validate_measurement (some mn) (mn, mx) field_name = true ∧
      validate_measurement (some mx) (mn, mx) field_name = true) := by
  unfold validate_measurement
  refine ⟨rfl, ?_, ?_, ?_, ?_, ?_⟩
  · intro h1 h2
    simp [h1, h2]
  · rintro (h | h) <;> (simp; intro h1; linarith)
  · simp
  · simp
  · intro h
    constructor <;> simp [h, le_refl]

/-- Witness for C5 at the weight-for-age bounds `(1, 30)` and value `7`. -/
theorem C5_validate_bounds_witness :
    validate_measurement (some 7) (1, 30) "weight" = true ∧
    validate_measurement (some 1) (1, 30) "weight" = true ∧
    validate_measurement (some 30) (1, 30) "weight" = true ∧
    validate_measurement (some 0) (1, 30) "weight" = false ∧
    validate_measurement (some 31) (1, 30) "weight" = false ∧
    validate_measurement none (1, 30) "weight" = false := by
  have h := C5_validate_bounds 1 30 7 "weight"
  exact ⟨h.2.1 (by norm_num) (by norm_num),
    (h.2.2.2.2.2 (by norm_num)).1,
    (h.2.2.2.2.2 (by norm_num)).2,
    by have := h.2.2.2.1; norm_num at this ⊢; exact this,
    by have := h.2.2.2.2.1; norm_num at this ⊢; exact this,
    h.1⟩

/-- C2: `classify_nutrition` assigns the category of a real z-score by the
stated half-open thresholds, boundary values falling in the lower
category: `z < -3` severe_underweight, `-3 ≤ z < -2` underweight,
`-2 ≤ z ≤ 1` normal, `1 < z ≤ 2` risk_overweight, `2 < z ≤ 3` overweight,
`z > 3` obese. -/
theorem C2_classify_thresholds (z : ℚ) :
    (z < -3 → (classify_nutrition (some z)).category = "severe_underweight") ∧
    (-3 ≤ z → z < -2 → (classify_nutrition (some z)).category = "underweight") ∧
    (-2 ≤ z → z ≤ 1 → (classify_nutrition (some z)).category = "normal") ∧
    (1 < z → z ≤ 2 → (classify_nutrition (some z)).category = "risk_overweight") ∧
    (2 < z → z ≤ 3 → (classify_nutrition (some z)).category = "overweight") ∧
    (3 < z → (classify_nutrition (some z)).category = "obese") := by
  simp only [classify_nutrition]
  refine ⟨?_, ?_, ?_, ?_, ?_, ?_⟩ <;> intros <;> split_ifs <;>
    first
    | rfl
    | linarith

/-- Witness for C2 at the four boundary probes of the spec:
`-2` normal, `-2.0001` underweight, `1` normal, `1.0001` risk_overweight. -/
theorem C2_classify_thresholds_witness :
    (classify_nutrition (some (-2))).category = "normal" ∧
    (classify_nutrition (some (-20001 / 10000))).category = "underweight" ∧
    (classify_nutrition (some 1)).category = "normal" ∧
    (classify_nutrition (some (10001 / 10000))).category = "risk_overweight" :=
  ⟨(C2_classify_thresholds (-2)).2.2.1 (by norm_num) (by norm_num),
   (C2_classify_thresholds (-20001 / 10000)).2.1 (by norm_num) (by norm_num),
   (C2_classify_thresholds 1).2.2.1 (by norm_num) (by norm_num),
   (C2_classify_thresholds (10001 / 10000)).2.2.2.1 (by norm_num) (by norm_num)⟩

/-- C8: for a fixed calculator object, `calculate_z_score` is deterministic —
two invocations on equal inputs give equal results, successful or not. -/
theorem C8_determinism (c : Option Calculator)
    (w hgt a w2 hgt2 a2 : Option ℚ) (g g2 t t2 : String)
    (hw : w = w2) (hh : hgt = hgt2) (ha : a = a2) (hg : g = g2) (ht : t = t2) :
    calculate_z_score c w hgt a g t = calculate_z_score c w2 hgt2 a2 g2 t2 := by
  subst hw hh ha hg ht
  rfl

/-- Witness for C8 at a concrete input (calculator absent, wfa request). -/
theorem C8_determinism_witness :
    calculate_z_score none (some (19 / 2)) (some 70) (some 12) "M" "wfa" =
      calculate_z_score none (some (19 / 2)) (some 70) (some 12) "M" "wfa" :=
  C8_determinism none (some (19 / 2)) (some 70) (some 12) (some (19 / 2))
    (some 70) (some 12) "M" "M" "wfa" "wfa" rfl rfl rfl rfl rfl

/-- C9: a request without a gender field is not rejected — gender silently
defaults to "M" — and lowercase "m"/"f" are accepted because gender is
uppercased before the membership check. -/
theorem C9_gender_default (c : Option Calculator) (r : ZRequest)
    (hw : r.weight ≠ none) (ha : r.age_months ≠ none) :
    api_calculate_zscore c { r with gender := none } =
      api_calculate_zscore c { r with gender := some "M" } ∧
    api_calculate_zscore c { r with gender := some "m" } =
      api_calculate_zscore c { r with gender := some "M" } ∧
    api_calculate_zscore c { r with gender := some "f" } =
      api_calculate_zscore c { r with gender := some "F" } ∧
    ((r.gender = none ∨ r.gender = some "m" ∨ r.gender = some "f") →
      (api_calculate_zscore c r).status ≠ 400) := by
  obtain ⟨w, hgt, am, g, t⟩ := r
  refine ⟨rfl, rfl, rfl, ?_⟩
  intro hg
  have hG : genderEff ⟨w, hgt, am, g, t⟩ = "M" ∨ genderEff ⟨w, hgt, am, g, t⟩ = "F" := by
    rcases hg with hg | hg | hg <;> simp only at hg <;> subst hg
    · exact Or.inl (by decide : pyUpper "M" = "M")
    · exact Or.inl (by decide : pyUpper "m" = "M")
    · exact Or.inr (by decide : pyUpper "f" = "F")
  simp only at hw ha
  unfold api_calculate_zscore
  rw [if_neg (by push_neg; exact ⟨hw, ha⟩), if_neg (not_not_intro hG)]
  cases calculate_z_score c w hgt am (genderEff ⟨w, hgt, am, g, t⟩)
      (typeEff ⟨w, hgt, am, g, t⟩) <;> simp

/-- Witness for C9 at a concrete request (weight 19/2, age 12). -/
theorem C9_gender_default_witness :
    api_calculate_zscore none ⟨some (19 / 2), none, some 12, none, none⟩ =
      api_calculate_zscore none ⟨some (19 / 2), none, some 12, some "M", none⟩ ∧
    (api_calculate_zscore none ⟨some (19 / 2), none, some 12, some "m", none⟩).status ≠ 400 :=
  ⟨(C9_gender_default none ⟨some (19 / 2), none, some 12, some "x", none⟩
      (by decide) (by decide)).1,
   (C9_gender_default none ⟨some (19 / 2), none, some 12, some "m", none⟩
      (by decide) (by decide)).2.2.2 (Or.inr (Or.inl rfl))⟩

/-- C10: for measurement type "bfa" the computed z-score does not depend on
`age_months` — the code passes `height` where the reference lookup expects
the second coordinate (`calc.bfa(weight, height, gender)`), so two requests
identical except in the (present) value of `age_months` yield the same
z-score. -/
theorem C10_bfa_ignores_age (c : Option Calculator) (r : ZRequest) (a a2 : ℚ) :
    calculate_z_score c r.weight r.height (some a) (genderEff r) "bfa" =
      calculate_z_score c r.weight r.height (some a2) (genderEff r) "bfa" ∧
    (api_calculate_zscore c
        { r with age_months := some a, type := some "bfa" }).z_score =
      (api_calculate_zscore c
        { r with age_months := some a2, type := some "bfa" }).z_score := by
  have hz : ∀ (w hgt : Option ℚ) (g : String),
      calculate_z_score c w hgt (some a) g "bfa" =
        calculate_z_score c w hgt (some a2) g "bfa" := by
    intro w hgt g
    cases c <;> rfl
  refine ⟨hz _ _ _, ?_⟩
  obtain ⟨w, hgt, am, g, t⟩ := r
  simp only [api_calculate_zscore, typeEff, genderEff]
  simp [hz w hgt]

/-- C1 counterexample material: a calculator whose weight-for-age lookup
succeeds with z-score 5, one whose lookups all fail, and the request with
weight 100 kg (far outside the documented `[1, 30]` bound) at 12 months. -/
def calcOk : Calculator :=
  ⟨fun _ _ _ => some 5, fun _ _ _ => none, fun _ _ _ => none,
   fun _ _ _ => none, fun _ _ _ => none⟩

/-- A reference calculator all of whose lookups fail. -/
def calcFail : Calculator :=
  ⟨fun _ _ _ => none, fun _ _ _ => none, fun _ _ _ => none,
   fun _ _ _ => none, fun _ _ _ => none⟩

/-- The weight-for-age request with weight 100 kg and age 12 months. -/
def reqWeight100 : ZRequest := ⟨some 100, none, some 12, some "M", some "wfa"⟩

/-- C1 counterexample: the measurement validator rejects weight 100 kg for
the weight-for-age bound `(1, 30)` of the `BOUNDS` table, yet the endpoint
invokes the z-score engine on that very input — its response depends on the
engine's lookup result there (200 when the lookup succeeds, 500 when it
fails), so the computation is attempted on a validator-rejected input. -/
theorem C1_counterexample :
    ("wfa", ((1 : ℚ), (30 : ℚ))) ∈ BOUNDS ∧
    validate_measurement reqWeight100.weight (1, 30) "weight" = false ∧
    (api_calculate_zscore (some calcOk) reqWeight100).status = 200 ∧
    (api_calculate_zscore (some calcFail) reqWeight100).status = 500 :=
  ⟨by decide, by decide, rfl, rfl⟩

/-- C1 amended: the endpoint performs no physiological-bounds validation at
all — whenever weight and age parse and gender normalizes to M or F, the
z-score engine is invoked and fully determines the response (500 on lookup
failure, 200 with the rounded value on success), even when the measurement
fails `validate_measurement` for its documented bound. -/
theorem C1_amended (c : Option Calculator) (r : ZRequest)
    (hw : r.weight ≠ none) (ha : r.age_months ≠ none)
    (hg : genderEff r = "M" ∨ genderEff r = "F")
    (hv : validate_measurement r.weight (1, 30) "weight" = false) :
    api_calculate_zscore c r =
      match calculate_z_score c r.weight r.height r.age_months (genderEff r)
          (typeEff r) with
      | none => ⟨500, some "Could not calculate z-score", none, none⟩
      | some z => ⟨200, none, some (round2 z), some (classify_nutrition (some z))⟩ := by
  unfold api_calculate_zscore
  rw [if_neg (by push_neg; exact ⟨hw, ha⟩), if_neg (not_not_intro hg)]

/-- Witness for C1 amended at the out-of-bounds request `reqWeight100`. -/
theorem C1_amended_witness :
    (api_calculate_zscore (some calcOk) reqWeight100).status = 200 := by
  have h := C1_amended (some calcOk) reqWeight100 (by decide) (by decide)
    (Or.inl (by decide)) (by decide)
  rw [h]
  rfl

/-- C3 counterexample: with a calculator whose weight-for-age lookup fails,
the unsupported-kind failure (type "xyz") and the lookup failure on the
supported kind "wfa" produce the very same result `none`, and the endpoint
returns the identical 500 response for both — the two failure modes are not
distinguishable in the result. -/
theorem C3_counterexample :
    calculate_z_score (some calcFail) (some 5) (some 70) (some 12) "M" "xyz" =
      none ∧
    calculate_z_score (some calcFail) (some 5) (some 70) (some 12) "M" "wfa" =
      none ∧
    api_calculate_zscore (some calcFail)
        ⟨some 5, some 70, some 12, some "M", some "xyz"⟩ =
      api_calculate_zscore (some calcFail)
        ⟨some 5, some 70, some 12, some "M", some "wfa"⟩ :=
  ⟨rfl, rfl, rfl⟩

/-- C3 amended: an unsupported index kind and a failing lookup on a
supported kind both make `calculate_z_score` return the single failure
value `None`; nothing in the result separates the two cases. -/
theorem C3_amended (cal : Calculator) (w hgt a : Option ℚ) (g t : String)
    (ht : t ≠ "wfa" ∧ t ≠ "hfa" ∧ t ≠ "wfh" ∧ t ≠ "bfa" ∧ t ≠ "hcfa")
    (hfail : cal.wfa w a g = none) :
    calculate_z_score (some cal) w hgt a g t = none ∧
    calculate_z_score (some cal) w hgt a g "wfa" = none := by
  obtain ⟨h1, h2, h3, h4, h5⟩ := ht
  constructor
  · simp [calculate_z_score, h1, h2, h3, h4, h5]
  · simp [calculate_z_score, hfail]

/-- Witness for C3 amended at `calcFail` and type "xyz". -/
theorem C3_amended_witness :
    calculate_z_score (some calcFail) (some 5) (some 70) (some 12) "M" "xyz" =
      none ∧
    calculate_z_score (some calcFail) (some 5) (some 70) (some 12) "M" "wfa" =
      none :=
  C3_amended calcFail (some 5) (some 70) (some 12) "M" "xyz"
    ⟨by decide, by decide, by decide, by decide, by decide⟩ rfl

/-- C4: the endpoint returns 400 exactly when weight or age_months is
missing or the (uppercased, defaulted) gender is not in {M, F}; 500 exactly
when the inputs pass but the index is not computable; a 400 response
carries an error field and no z_score; and a success carries the z-score
rounded to 2 decimals together with the classification. -/
theorem C4_endpoint_contract (c : Option Calculator) (r : ZRequest) :
    ((api_calculate_zscore c r).status = 400 ↔
      (r.weight = none ∨ r.age_months = none ∨
        ¬ (genderEff r = "M" ∨ genderEff r = "F"))) ∧
    ((api_calculate_zscore c r).status = 500 ↔
      (r.weight ≠ none ∧ r.age_months ≠ none ∧
        (genderEff r = "M" ∨ genderEff r = "F") ∧
        calculate_z_score c r.weight r.height r.age_months (genderEff r)
          (typeEff r) = none)) ∧
    ((api_calculate_zscore c r).status = 400 →
      (api_calculate_zscore c r).error ≠ none ∧
      (api_calculate_zscore c r).z_score = none) ∧
    (∀ z,
      r.weight ≠ none → r.age_months ≠ none →
      (genderEff r = "M" ∨ genderEff r = "F") →
      calculate_z_score c r.weight r.height r.age_months (genderEff r)
        (typeEff r) = some z →
      (api_calculate_zscore c r).status = 200 ∧
      (api_calculate_zscore c r).z_score = some (round2 z) ∧
      (api_calculate_zscore c r).classification =
        some (classify_nutrition (some z))) := by
  unfold api_calculate_zscore
  by_cases h1 : r.weight = none ∨ r.age_months = none
  · rw [if_pos h1]
    rcases h1 with h1 | h1 <;> simp [h1]
  · push_neg at h1
    rw [if_neg (by push_neg; exact h1)]
    by_cases h2 : genderEff r = "M" ∨ genderEff r = "F"
    · rw [if_neg (not_not_intro h2)]
      cases hcz : calculate_z_score c r.weight r.height r.age_months
          (genderEff r) (typeEff r) <;>
        simp [h1.1, h1.2, h2, hcz]
    · rw [if_pos h2]
      simp [h1.1, h1.2, h2]

/-- Witness for C4: a request with the weight key absent yields 400 with an
error and no z_score, and a valid request against a succeeding calculator
yields 200 with the rounded z-score and its classification. -/
theorem C4_endpoint_contract_witness :
    (api_calculate_zscore (some calcOk)
        ⟨none, none, some 12, some "M", some "wfa"⟩).status = 400 ∧
    (api_calculate_zscore (some calcOk)
        ⟨none, none, some 12, some "M", some "wfa"⟩).error ≠ none ∧
    (api_calculate_zscore (some calcOk)
        ⟨none, none, some 12, some "M", some "wfa"⟩).z_score = none ∧
    (api_calculate_zscore (some calcOk)
        ⟨some (19 / 2), none, some 12, some "M", some "wfa"⟩).status = 200 ∧
    (api_calculate_zscore (some calcOk)
        ⟨some (19 / 2), none, some 12, some "M", some "wfa"⟩).z_score =
      some (round2 5) := by
  have h400 := (C4_endpoint_contract (some calcOk)
    ⟨none, none, some 12, some "M", some "wfa"⟩).1.mpr (Or.inl rfl)
  have herr := (C4_endpoint_contract (some calcOk)
    ⟨none, none, some 12, some "M", some "wfa"⟩).2.2.1 h400
  have hok := (C4_endpoint_contract (some calcOk)
    ⟨some (19 / 2), none, some 12, some "M", some "wfa"⟩).2.2.2 5
    (by decide) (by decide) (Or.inl (by decide)) rfl
  exact ⟨h400, herr.1, herr.2, hok.1, hok.2.1⟩

/-- Closed form of the age-band selection loop: the nested conditionals it
unfolds to on the eight literal keys. -/
theorem kpspAgeGroup_eq (age : ℚ) :
    kpspAgeGroup age =
      if 24 ≤ age then some 24 else if 21 ≤ age then some 21
      else if 18 ≤ age then some 18 else if 15 ≤ age then some 15
      else if 12 ≤ age then some 12 else if 9 ≤ age then some 9
      else if 6 ≤ age then some 6 else if 3 ≤ age then some 3
      else none := rfl

/-- C6: the KPSP evaluator selects the band whose threshold is the largest
defined threshold `≤` the child's age; an age below the smallest band gives
HTTP 400, and an answer count differing from the selected band's question
count gives HTTP 400. -/
theorem C6_band_selection (r : KRequest) (age : ℚ)
    (h : r.age_months = some age) :
    (∀ g, kpspAgeGroup age = some g →
      g ∈ kpspKeys ∧ g ≤ age ∧ ∀ k ∈ kpspKeys, k ≤ age → k ≤ g) ∧
    (age < 3 → (api_kpsp_evaluate r).status = 400) ∧
    (∀ g, kpspAgeGroup age = some g →
      r.answers.length ≠ (kpspQuestionsFor g).length →
      (api_kpsp_evaluate r).status = 400) := by
  refine ⟨?_, ?_, ?_⟩
  · intro g hg
    rw [kpspAgeGroup_eq] at hg
    split_ifs at hg with h24 h21 h18 h15 h12 h9 h6 h3 <;> cases hg
    all_goals refine ⟨by decide, by linarith, ?_⟩
    all_goals intro k hk hka
    all_goals simp [kpspKeys, KPSP_QUESTIONS] at hk
    all_goals rcases hk with rfl | rfl | rfl | rfl | rfl | rfl | rfl | rfl <;>
      linarith
  · intro hlt
    have hnone : kpspAgeGroup age = none := by
      rw [kpspAgeGroup_eq]
      split_ifs <;> first | rfl | linarith
    simp [api_kpsp_evaluate, h, hnone]
  · intro g hg hlen
    simp [api_kpsp_evaluate, h, hg, hlen]

/-- Witness for C6: age 2 months (below the smallest band) gives 400, and a
12-month request with 3 answers for the 5-question band gives 400; the
13-month age selects the 12-month band. -/
theorem C6_band_selection_witness :
    (api_kpsp_evaluate ⟨some 2, []⟩).status = 400 ∧
    (api_kpsp_evaluate ⟨some 12, [true, true, true]⟩).status = 400 ∧
    kpspAgeGroup 13 = some 12 := by
  have h1 := C6_band_selection ⟨some 2, []⟩ 2 rfl
  have h2 := C6_band_selection ⟨some 12, [true, true, true]⟩ 12 rfl
  exact ⟨h1.2.1 (by norm_num), h2.2.2 12 (by decide) (by decide), by decide⟩

/-- C7: for every valid KPSP submission the score is the number of yes
answers, and the result is "Perkembangan Sesuai Usia" at ≥ 80% of the
question count, "Perkembangan Terduga Terlambat" at 60%–80%, and
"Perkembangan Terlambat" otherwise. -/
theorem C7_kpsp_score (r : KRequest) (age g : ℚ)
    (h : r.age_months = some age) (hg : kpspAgeGroup age = some g)
    (hlen : r.answers.length = (kpspQuestionsFor g).length) :
    (api_kpsp_evaluate r).score =
      some (r.answers.filter (fun a => a)).length ∧
    (((r.answers.filter (fun a => a)).length : ℚ) ≥
        ((kpspQuestionsFor g).length : ℚ) * (8 / 10) →
      (api_kpsp_evaluate r).result = some "Perkembangan Sesuai Usia") ∧
    (((kpspQuestionsFor g).length : ℚ) * (6 / 10) ≤
        ((r.answers.filter (fun a => a)).length : ℚ) →
      ((r.answers.filter (fun a => a)).length : ℚ) <
        ((kpspQuestionsFor g).length : ℚ) * (8 / 10) →
      (api_kpsp_evaluate r).result = some "Perkembangan Terduga Terlambat") ∧
    (((r.answers.filter (fun a => a)).length : ℚ) <
        ((kpspQuestionsFor g).length : ℚ) * (6 / 10) →
      (api_kpsp_evaluate r).result = some "Perkembangan Terlambat") := by
  have hne : ¬ (r.answers.length ≠ (kpspQuestionsFor g).length) := by
    simp [hlen]
  simp only [api_kpsp_evaluate, h, if_neg hne]
  rw [hg]
  refine ⟨?_, ?_, ?_, ?_⟩ <;> simp only [] <;> split_ifs with hA hB <;>
    intros <;> first | rfl | linarith

/-- Witness for C7 at the 12-month band: 5 yes answers give score 5 and
"Perkembangan Sesuai Usia", 2 yes answers give score 2 and
"Perkembangan Terlambat". -/
theorem C7_kpsp_score_witness :
    (api_kpsp_evaluate ⟨some 12, [true, true, true, true, true]⟩).score =
      some 5 ∧
    (api_kpsp_evaluate ⟨some 12, [true, true, true, true, true]⟩).result =
      some "Perkembangan Sesuai Usia" ∧
    (api_kpsp_evaluate ⟨some 12, [true, true, false, false, false]⟩).score =
      some 2 ∧
    (api_kpsp_evaluate ⟨some 12, [true, true, false, false, false]⟩).result =
      some "Perkembangan Terlambat" := by
  have h5 := C7_kpsp_score ⟨some 12, [true, true, true, true, true]⟩ 12 12
    rfl (by decide) (by decide)
  have h2 := C7_kpsp_score ⟨some 12, [true, true, false, false, false]⟩ 12 12
    rfl (by decide) (by decide)
  have hq : (kpspQuestionsFor (12 : ℚ)).length = 5 := by decide
  have hf5 : ((⟨some 12, [true, true, true, true, true]⟩ : KRequest).answers.filter
      (fun a => a)).length = 5 := by decide
  have hf2 : ((⟨some 12, [true, true, false, false, false]⟩ : KRequest).answers.filter
      (fun a => a)).length = 2 := by decide
  refine ⟨h5.1.trans (by rw [hf5]), ?_, h2.1.trans (by rw [hf2]), ?_⟩
  · refine h5.2.1 ?_
    rw [hf5, hq]
    norm_num
  · refine h2.2.2.2 ?_
    rw [hf2, hq]
    norm_num

end PeduliGizi
